import Mathlib

/-!
Shallow embedding of `src/prespur_economy.py` (the Ilha Prespur realm-economy
simulator) and verification of its specification.

Modelling conventions:
* Python numerics are exact: `ℤ` for values that stay integral, `ℚ` where the
  source can produce fractional values (scarcity `0.5` makes `foreign_sales`
  fractional).  Python `round` (banker's rounding, half to even) is `pyRound`.
* Python dictionaries (insertion ordered, unique keys) are association lists
  `List (String × _)`; `dict.get(k, d)` is `alistGetD`, `d[k] = v` is `alistSet`
  (replace the first binding in place, else append — Python insertion order).
* The module-level random source is an explicit `Oracle` argument carrying the
  two `randint` draws and the `uniform(-R_RANGE, R_RANGE)` draw of one step;
  the flavour-reason `random.choice` draw does not affect the state and is not
  modelled.
* Functions that can raise return `Except String`; `roll_die` fails exactly
  when Python's `random.randint(1, n)` has an empty range (`n < 1`).
-/

namespace Prespur

/-- Python `round` on an exact rational: round half to even. -/
def pyRound (q : ℚ) : ℤ :=
  let f : ℤ := q.floor
  let r : ℚ := q - (f : ℚ)
  if r < 1/2 then f
  else if 1/2 < r then f + 1
  else if f % 2 = 0 then f else f + 1

/-- Python `d.get(k, dflt)` on an association list. -/
def alistGetD {α : Type} (l : List (String × α)) (k : String) (dflt : α) : α :=
  match l.find? (fun p => p.1 == k) with
  | some p => p.2
  | none => dflt

/-- Python `d[k] = v`: replace the first binding of `k` in place, else append. -/
def alistSet {α : Type} : List (String × α) → String → α → List (String × α)
  | [], k, v => [(k, v)]
  | p :: ps, k, v => if p.1 = k then (k, v) :: ps else p :: alistSet ps k v

/-- Python `sum(d.values())` for a rational-valued mapping. -/
def alistSum (l : List (String × ℚ)) : ℚ := (l.map (fun p => p.2)).sum

/-- `DIE_LADDER = ["d0", "d2", "d4", "d6", "d8", "d10", "d12"]`. -/
def DIE_LADDER : List String := ["d0", "d2", "d4", "d6", "d8", "d10", "d12"]

/-- `GP_PER_EXPORT_STEP = 5`. -/
def GP_PER_EXPORT_STEP : ℤ := 5

/-- `LOYALTY_GROWTH_FACTOR = 0.05`. -/
def LOYALTY_GROWTH_FACTOR : ℚ := 5/100

/-- `TARIFF_RATE = 1` (percent). -/
def TARIFF_RATE : ℚ := 1

/-- `BOOM_THRESHOLD = 7`. -/
def BOOM_THRESHOLD : ℤ := 7

/-- `SLUMP_THRESHOLD = 5`. -/
def SLUMP_THRESHOLD : ℤ := 5

/-- `TREND_BOOM_TRIGGER = 0.035`. -/
def TREND_BOOM_TRIGGER : ℚ := 35/1000

/-- `TREND_SLUMP_TRIGGER = -0.035`. -/
def TREND_SLUMP_TRIGGER : ℚ := -35/1000

/-- `R_RANGE = 0.1`. -/
def R_RANGE : ℚ := 1/10

/-- `ECON_BIAS = 0`. -/
def ECON_BIAS : ℚ := 0

/-- One neighbouring power of the `NEIGHBOURS` table. -/
structure Neighbour where
  pop : ℚ
  rel : ℚ
  dist : ℚ
  scarcity : List (String × ℚ)
deriving Repr, DecidableEq, Inhabited

/-- The `NEIGHBOURS` reference table (insertion order preserved). -/
def NEIGHBOURS : List (String × Neighbour) :=
  [("Cormyr", { pop := 4, rel := 1, dist := 5,
                scarcity := [("fish", 1/2), ("timber", 1), ("salt", 1)] }),
   ("Sembia", { pop := 6, rel := 0, dist := 3,
                scarcity := [("fish", 0), ("timber", 1), ("salt", 0)] }),
   ("Pirate Isles", { pop := 1, rel := -1, dist := 1,
                      scarcity := [("fish", 0), ("timber", 2), ("salt", 0)] })]

/-- The `EconomyState` dataclass.  `revenue` and `costs` values are modelled in
`ℚ` because the engine writes the (possibly fractional) `foreign_sales` value
back into `revenue`; `validate` checks that caller-supplied values are
non-negative integers (`isinstance(val, int) and val >= 0`). -/
structure EconomyState where
  trade_die : String
  agri_die : String
  exports : List (String × String)
  revenue : List (String × ℚ)
  export_quantities : List (String × ℤ)
  costs : List (String × ℚ)
  import_penalties : ℤ
  upkeep : ℤ
  loyalty_tier : ℤ
  treasury : ℤ
  total_import_value : ℤ
deriving Repr, DecidableEq, Inhabited

/-- `EconomyState.validate`: sequential checks, the first failed check raises. -/
def EconomyState.validate (s : EconomyState) : Except String Unit :=
  match ([s.trade_die, s.agri_die] ++ s.exports.map (fun p => p.2)).find?
      (fun d => !(decide (d ∈ DIE_LADDER))) with
  | some d => .error ("Invalid die code: " ++ d)
  | none =>
    if ∃ v ∈ s.revenue.map (fun p => p.2) ++ s.costs.map (fun p => p.2),
        ¬(v.den = 1 ∧ 0 ≤ v) then
      .error "Revenue/cost values must be non-negative ints."
    else if s.import_penalties < 0 ∨ s.upkeep < 0 then
      .error "Import penalties and upkeep must be non-negative."
    else if ¬(0 ≤ s.loyalty_tier ∧ s.loyalty_tier ≤ 5) then
      .error "Loyalty tier must be between 0 and 5."
    else if s.treasury < 0 then
      .error "Treasury cannot be negative."
    else if s.total_import_value < 0 then
      .error "Total import value cannot be negative."
    else .ok ()

/-- The conjunction of the invariants `EconomyState.validate` enforces. -/
def ValidState (s : EconomyState) : Prop :=
  s.trade_die ∈ DIE_LADDER ∧ s.agri_die ∈ DIE_LADDER ∧
  (∀ p ∈ s.exports, p.2 ∈ DIE_LADDER) ∧
  (∀ p ∈ s.revenue, (p.2).den = 1 ∧ 0 ≤ p.2) ∧
  (∀ p ∈ s.costs, (p.2).den = 1 ∧ 0 ≤ p.2) ∧
  0 ≤ s.import_penalties ∧ 0 ≤ s.upkeep ∧
  (0 ≤ s.loyalty_tier ∧ s.loyalty_tier ≤ 5) ∧
  0 ≤ s.treasury ∧ 0 ≤ s.total_import_value

instance (s : EconomyState) : Decidable (ValidState s) := by
  unfold ValidState; infer_instance

/-- Python `int(cs)` on a non-empty string of decimal digits (the only shape
that occurs in die codes), `none` where Python's parse raises. -/
def digitsToInt? : List Char → Option ℤ
  | [] => none
  | cs =>
    if cs.all (fun c => c.isDigit) then
      some (cs.foldl (fun n c => 10 * n + ((c.toNat : ℤ) - 48)) 0)
    else none

/-- `die_size(code) = int(code[1:])` (only applied to ladder members in the
simulation, where the parse always succeeds). -/
def die_size (code : String) : ℤ := (digitsToInt? (code.drop 1).data).getD 0

/-- `roll_die(code) = random.randint(1, int(code[1:]))`, with the draw `r`
supplied by the oracle; `randint` raises exactly when the range is empty. -/
def roll_die (code : String) (r : ℤ) : Except String ℤ :=
  if die_size code < 1 then .error "empty range for randrange" else .ok r

/-- `avg_export_size`: mean die size, `0.0` for an empty mapping. -/
def avg_export_size (exports : List (String × String)) : ℚ :=
  if exports.isEmpty then 0
  else (exports.map (fun p => (die_size p.2 : ℚ))).sum / (exports.length : ℚ)

/-- `growth_modifier(exports) = max(-0.20, min(0.20, (round(avg) - 6) / 20.0))`. -/
def growth_modifier (exports : List (String × String)) : ℚ :=
  let avg_ei := pyRound (avg_export_size exports)
  max (-(20/100)) (min (20/100) (((avg_ei : ℚ) - 6) / 20))

/-- `random_variance() = random.uniform(-R_RANGE, R_RANGE) + ECON_BIAS`, with
the uniform draw `u` supplied by the oracle. -/
def random_variance (u : ℚ) : ℚ := u + ECON_BIAS

/-- `step_die(code, up)`: move one ladder index, clamped into the ladder;
`none` models the `ValueError` of `.index` on a non-member. -/
def step_die (code : String) (up : Bool) : Option String :=
  match DIE_LADDER.findIdx? (fun d => d == code) with
  | none => none
  | some idx =>
    let idx2 : ℤ := max 0 (min ((idx : ℤ) + (if up then 1 else -1))
      ((DIE_LADDER.length : ℤ) - 1))
    some (DIE_LADDER.getD idx2.toNat "d0")

/-- `demand_score(pop, scar, rel, dist) = max(0, (pop + scar + rel) - dist)`. -/
def demand_score (pop scar rel dist : ℚ) : ℚ := max 0 (pop + scar + rel - dist)

/-- `foreign_sales(exports)`: total gp over all neighbours and exported
commodities with strictly positive demand score. -/
def foreign_sales (exports : List (String × String)) : ℚ :=
  (NEIGHBOURS.map (fun n =>
    (exports.map (fun ce =>
      let scar := alistGetD n.2.scarcity ce.1 0
      let score := demand_score n.2.pop scar n.2.rel n.2.dist
      if 0 < score then score * (die_size ce.2 : ℚ) * (GP_PER_EXPORT_STEP : ℚ)
      else 0)).sum)).sum

/-- Python `min(exports, key=lambda k: die_size(exports[k]))` (first minimal
entry in iteration order), `none` on an empty mapping. -/
def min_export : List (String × String) → Option (String × String)
  | [] => none
  | p :: ps =>
    some (ps.foldl (fun best q => if die_size q.2 < die_size best.2 then q else best) p)

/-- Python `max(exports, key=lambda k: die_size(exports[k]))` (first maximal
entry in iteration order), `none` on an empty mapping. -/
def max_export : List (String × String) → Option (String × String)
  | [] => none
  | p :: ps =>
    some (ps.foldl (fun best q => if die_size best.2 < die_size q.2 then q else best) p)

/-- The boom branch of `simulate_month`: step the smallest export die up (if
any exports exist) and step the trade die up. -/
def apply_boom (exports : List (String × String)) (trade_die : String) :
    Option (List (String × String) × String) :=
  match (match min_export exports with
         | none => some exports
         | some w => (step_die w.2 true).map (fun d => alistSet exports w.1 d)) with
  | none => none
  | some exports2 =>
    match step_die trade_die true with
    | none => none
    | some trade2 => some (exports2, trade2)

/-- The slump branch of `simulate_month`: step the largest export die down (if
any exports exist) and step the trade die down. -/
def apply_slump (exports : List (String × String)) (trade_die : String) :
    Option (List (String × String) × String) :=
  match (match max_export exports with
         | none => some exports
         | some w => (step_die w.2 false).map (fun d => alistSet exports w.1 d)) with
  | none => none
  | some exports2 =>
    match step_die trade_die false with
    | none => none
    | some trade2 => some (exports2, trade2)

/-- The random draws consumed by one `simulate_month` step. -/
structure Oracle where
  t_roll : ℤ
  a_roll : ℤ
  variance : ℚ
deriving Repr, DecidableEq, Inhabited

/-- All local values of one `simulate_month` step together with the mutated
state (the Python function mutates `state` in place and returns it). -/
structure StepResult where
  t_roll : ℤ
  a_roll : ℤ
  trade_gp : ℤ
  agri_gp : ℤ
  exp_gp : ℤ
  foreign_gp : ℚ
  potential_tariff : ℤ
  outflows : ℚ
  flat_rev : ℚ
  raw : ℚ
  trend : ℚ
  profit : ℤ
  avg_ei : ℤ
  boom : Bool
  slump : Bool
  state : EconomyState
deriving Repr, DecidableEq, Inhabited

/-- `EconomySimulator.simulate_month`, with every local value exposed in the
result.  Mirrors the source line by line; in-place mutation of `state` is
modelled by returning the updated record. -/
def simulate_month_core (s : EconomyState) (o : Oracle) : Except String StepResult :=
  match s.validate with
  | .error e => .error e
  | .ok _ =>
  match roll_die s.trade_die o.t_roll with
  | .error e => .error e
  | .ok t_roll =>
  match roll_die s.agri_die o.a_roll with
  | .error e => .error e
  | .ok a_roll =>
    let trade_gp := 25 * t_roll
    let agri_gp := 10 * a_roll
    let exp_gp :=
      (s.exports.map (fun ce =>
        alistGetD s.export_quantities ce.1 0 * GP_PER_EXPORT_STEP)).sum
    let foreign_gp := foreign_sales s.exports
    let revenue1 := alistSet s.revenue "foreign_sales" foreign_gp
    let potential_tariff :=
      pyRound (((trade_gp : ℚ) + (agri_gp : ℚ) + alistSum revenue1 + (exp_gp : ℚ)
        + foreign_gp) * (TARIFF_RATE / 100))
    let revenue2 := alistSet revenue1 "trade_tariff" (potential_tariff : ℚ)
    let outflows := alistSum s.costs + (s.import_penalties : ℚ) + (s.upkeep : ℚ)
      + (potential_tariff : ℚ)
    let flat_rev := alistGetD revenue2 "other_income" 0
      + alistGetD revenue2 "luxury_tax" 0 + alistGetD revenue2 "gate_fees" 0
    let raw := (trade_gp : ℚ) + (agri_gp : ℚ) + flat_rev + (exp_gp : ℚ) + foreign_gp
      - (alistSum s.costs + (s.import_penalties : ℚ) + (s.upkeep : ℚ))
    let trend := growth_modifier s.exports + random_variance o.variance
    let profit := pyRound (raw * (1 + LOYALTY_GROWTH_FACTOR * (s.loyalty_tier : ℚ) + trend))
    let treasury2 := s.treasury + profit
    let avg_ei := pyRound (avg_export_size s.exports)
    let boom := decide (TREND_BOOM_TRIGGER ≤ trend) || decide (BOOM_THRESHOLD ≤ avg_ei)
    let slump := decide (trend ≤ TREND_SLUMP_TRIGGER) || decide (avg_ei ≤ SLUMP_THRESHOLD)
    match (if boom then apply_boom s.exports s.trade_die
           else if slump then apply_slump s.exports s.trade_die
           else some (s.exports, s.trade_die)) with
    | none => .error "Invalid die code"
    | some (exports2, trade2) =>
      .ok { t_roll := t_roll, a_roll := a_roll, trade_gp := trade_gp,
            agri_gp := agri_gp, exp_gp := exp_gp, foreign_gp := foreign_gp,
            potential_tariff := potential_tariff, outflows := outflows,
            flat_rev := flat_rev, raw := raw, trend := trend, profit := profit,
            avg_ei := avg_ei, boom := boom, slump := slump,
            state := { s with trade_die := trade2, exports := exports2,
                              revenue := revenue2, treasury := treasury2 } }

/-- `simulate_month` as seen by the caller: the mutated state. -/
def simulate_month (s : EconomyState) (o : Oracle) : Except String EconomyState :=
  (simulate_month_core s o).map (fun r => r.state)

/-! Derived closed forms of the per-step local values, for use in theorem
statements; the inversion lemma `simulate_month_core_ok` proves that a
successful step takes exactly these values. -/

/-- `trade_gp = 25 * t_roll`. -/
def trade_gp_of (o : Oracle) : ℤ := 25 * o.t_roll

/-- `agri_gp = 10 * a_roll`. -/
def agri_gp_of (o : Oracle) : ℤ := 10 * o.a_roll

/-- `exp_gp`: domestic export revenue from quantities of exported commodities. -/
def exp_gp_of (s : EconomyState) : ℤ :=
  (s.exports.map (fun ce =>
    alistGetD s.export_quantities ce.1 0 * GP_PER_EXPORT_STEP)).sum

/-- The revenue mapping after `revenue['foreign_sales'] = foreign_gp`. -/
def revenue1_of (s : EconomyState) : List (String × ℚ) :=
  alistSet s.revenue "foreign_sales" (foreign_sales s.exports)

/-- `potential_tariff`: rounded percentage of the tariff base, which sums all
values of the revenue mapping after the foreign-sales store. -/
def tariff_of (s : EconomyState) (o : Oracle) : ℤ :=
  pyRound (((trade_gp_of o : ℚ) + (agri_gp_of o : ℚ) + alistSum (revenue1_of s)
    + (exp_gp_of s : ℚ) + foreign_sales s.exports) * (TARIFF_RATE / 100))

/-- The revenue mapping after `revenue['trade_tariff'] = potential_tariff`. -/
def revenue2_of (s : EconomyState) (o : Oracle) : List (String × ℚ) :=
  alistSet (revenue1_of s) "trade_tariff" ((tariff_of s o : ℤ) : ℚ)

/-- `outflows = sum(costs.values()) + import_penalties + upkeep + potential_tariff`. -/
def outflows_of (s : EconomyState) (o : Oracle) : ℚ :=
  alistSum s.costs + (s.import_penalties : ℚ) + (s.upkeep : ℚ)
    + ((tariff_of s o : ℤ) : ℚ)

/-- `flat_rev`: the three flat revenue line items, missing keys read as 0. -/
def flat_rev_of (s : EconomyState) (o : Oracle) : ℚ :=
  alistGetD (revenue2_of s o) "other_income" 0
    + alistGetD (revenue2_of s o) "luxury_tax" 0
    + alistGetD (revenue2_of s o) "gate_fees" 0

/-- `raw`: inflows minus costs, penalties and upkeep — the tariff is excluded. -/
def raw_of (s : EconomyState) (o : Oracle) : ℚ :=
  (trade_gp_of o : ℚ) + (agri_gp_of o : ℚ) + flat_rev_of s o + (exp_gp_of s : ℚ)
    + foreign_sales s.exports
    - (alistSum s.costs + (s.import_penalties : ℚ) + (s.upkeep : ℚ))

/-- `trend = growth_modifier(exports) + random_variance()`. -/
def trend_of (s : EconomyState) (o : Oracle) : ℚ :=
  growth_modifier s.exports + random_variance o.variance

/-- `profit = round(raw * (1 + LOYALTY_GROWTH_FACTOR * loyalty_tier + trend))`. -/
def profit_of (s : EconomyState) (o : Oracle) : ℤ :=
  pyRound (raw_of s o * (1 + LOYALTY_GROWTH_FACTOR * (s.loyalty_tier : ℚ) + trend_of s o))

/-- `avg_ei = round(avg_export_size(exports))`. -/
def avg_ei_of (s : EconomyState) : ℤ := pyRound (avg_export_size s.exports)

/-- The boom flag: primary trend trigger OR average-export-size fallback. -/
def boom_of (s : EconomyState) (o : Oracle) : Bool :=
  decide (TREND_BOOM_TRIGGER ≤ trend_of s o) || decide (BOOM_THRESHOLD ≤ avg_ei_of s)

/-- The slump flag: primary trend trigger OR average-export-size fallback. -/
def slump_of (s : EconomyState) (o : Oracle) : Bool :=
  decide (trend_of s o ≤ TREND_SLUMP_TRIGGER) || decide (avg_ei_of s ≤ SLUMP_THRESHOLD)

/-! Concrete states and oracles used in witnesses and counterexamples. -/

/-- The initial state constructed in the module's main block. -/
def initial : EconomyState :=
  { trade_die := "d6", agri_die := "d6",
    exports := [("fish", "d4"), ("timber", "d4"), ("salt", "d0"), ("olives", "d2"),
                ("wine", "d2"), ("grain", "d8")],
    revenue := [("trade_tariff", 0), ("luxury_tax", 5), ("gate_fees", 0),
                ("other_income", 300)],
    export_quantities := [("fish", 2), ("timber", 2), ("salt", 0), ("olives", 1),
                          ("wine", 1), ("grain", 3)],
    costs := [("festival_grant", 75), ("road_levy", 0), ("bounties", 5)],
    import_penalties := 300, upkeep := 400, loyalty_tier := 0, treasury := 1000,
    total_import_value := 0 }

/-- `initial` with the trade die replaced by the ladder member `d0`. -/
def d0_state : EconomyState := { initial with trade_die := "d0" }

/-- `initial` with an out-of-range loyalty tier. -/
def bad_loyalty_state : EconomyState := { initial with loyalty_tier := 6 }

/-- `initial` with an invalid ladder code as trade die. -/
def bad_die_state : EconomyState := { initial with trade_die := "dX" }

/-- `initial` with the export mapping emptied. -/
def no_exports_state : EconomyState := { initial with exports := [] }

/-- `initial` with a negative export quantity for an exported commodity and a
quantity for a commodity that is not exported. -/
def neg_qty_state : EconomyState :=
  { initial with exports := [("fish", "d4")],
                 export_quantities := [("fish", -3), ("gold", 100)] }

/-- `initial` with average export size 5 (slump-fallback territory). -/
def avg5_state : EconomyState :=
  { initial with exports := [("olives", "d4"), ("wine", "d6")] }

/-- `initial` with average export size 8 (boom-fallback territory). -/
def avg8_state : EconomyState := { initial with exports := [("olives", "d8")] }

/-- `initial` with average export size 6 (neutral fallback territory). -/
def avg6_state : EconomyState := { initial with exports := [("olives", "d6")] }

/-- The oracle matching the worked example of the specification. -/
def o_main : Oracle := { t_roll := 4, a_roll := 3, variance := 0 }

/-- An oracle with zero variance. -/
def o_zero : Oracle := { t_roll := 1, a_roll := 1, variance := 0 }

/-- An oracle drawing the maximal variance. -/
def o_plus : Oracle := { t_roll := 1, a_roll := 1, variance := 1/10 }

/-- An oracle drawing the minimal variance. -/
def o_minus : Oracle := { t_roll := 1, a_roll := 1, variance := -(1/10) }

/-- An oracle drawing variance 0.05. -/
def o_half : Oracle := { t_roll := 1, a_roll := 1, variance := 1/20 }

/-- The step result of a successful concrete run (junk `default` otherwise). -/
def runResult (s : EconomyState) (o : Oracle) : StepResult :=
  ((simulate_month_core s o).toOption).getD default

/-! Helper lemmas. -/

theorem roll_die_ok {code : String} {r v : ℤ} (h : roll_die code r = .ok v) :
    1 ≤ die_size code ∧ v = r := by
  unfold roll_die at h
  split at h
  · exact Except.noConfusion h
  · next hc =>
    injection h with h
    exact ⟨by omega, h.symm⟩

theorem alistGetD_nil {α : Type} (k : String) (dflt : α) :
    alistGetD ([] : List (String × α)) k dflt = dflt := rfl

theorem alistGetD_cons {α : Type} (p : String × α) (ps : List (String × α))
    (k : String) (dflt : α) :
    alistGetD (p :: ps) k dflt = if p.1 = k then p.2 else alistGetD ps k dflt := by
  by_cases hp : p.1 = k
  · have hb : (p.1 == k) = true := beq_iff_eq.mpr hp
    simp [alistGetD, List.find?, hb, hp]
  · have hb : (p.1 == k) = false := beq_eq_false_iff_ne.mpr hp
    simp [alistGetD, List.find?, hb, hp]

theorem alistGetD_set_self {α : Type} (l : List (String × α)) (k : String) (v : α)
    (dflt : α) : alistGetD (alistSet l k v) k dflt = v := by
  induction l with
  | nil => simp [alistSet, alistGetD_cons, alistGetD_nil]
  | cons p ps ih =>
    by_cases hp : p.1 = k
    · simp [alistSet, hp, alistGetD_cons]
    · simp [alistSet, hp, alistGetD_cons, ih]

theorem alistGetD_set_ne {α : Type} (l : List (String × α)) {k k2 : String} (v : α)
    (dflt : α) (hk : k2 ≠ k) :
    alistGetD (alistSet l k v) k2 dflt = alistGetD l k2 dflt := by
  induction l with
  | nil => simp [alistSet, alistGetD_cons, alistGetD_nil, Ne.symm hk]
  | cons p ps ih =>
    by_cases hp : p.1 = k
    · have hp2 : ¬ (p.1 = k2) := by rw [hp]; exact Ne.symm hk
      simp [alistSet, hp, alistGetD_cons, Ne.symm hk, hp2]
    · simp [alistSet, hp, alistGetD_cons, ih]

theorem alistSet_keys_of_mem {α : Type} {l : List (String × α)} {k : String}
    (v : α) (hk : k ∈ l.map Prod.fst) :
    (alistSet l k v).map Prod.fst = l.map Prod.fst := by
  induction l with
  | nil => simp at hk
  | cons p ps ih =>
    by_cases hp : p.1 = k
    · simp [alistSet, hp]
    · have hk2 : k ∈ ps.map Prod.fst := by
        rcases List.mem_map.mp hk with ⟨q, hq, hq2⟩
        rcases List.mem_cons.mp hq with rfl | hq
        · exact absurd hq2 hp
        · exact List.mem_map.mpr ⟨q, hq, hq2⟩
      simp [alistSet, hp, ih hk2]

theorem foldl_choice_mem {α : Type} (f : α → α → α)
    (hf : ∀ a b, f a b = a ∨ f a b = b) :
    ∀ (ps : List α) (p : α), ps.foldl f p ∈ p :: ps := by
  intro ps
  induction ps with
  | nil => intro p; simp
  | cons q qs ih =>
    intro p
    have h1 := ih (f p q)
    simp only [List.foldl_cons]
    rcases List.mem_cons.mp h1 with h2 | h2
    · rcases hf p q with h | h
      · exact List.mem_cons.mpr (Or.inl (h2.trans h))
      · exact List.mem_cons.mpr (Or.inr (List.mem_cons.mpr (Or.inl (h2.trans h))))
    · exact List.mem_cons.mpr (Or.inr (List.mem_cons.mpr (Or.inr h2)))

theorem min_export_mem {l : List (String × String)} {w : String × String}
    (h : min_export l = some w) : w ∈ l := by
  cases l with
  | nil => exact Option.noConfusion h
  | cons p ps =>
    simp only [min_export, Option.some.injEq] at h
    subst h
    exact foldl_choice_mem _
      (fun a b => by by_cases hc : die_size b.2 < die_size a.2 <;> simp [hc]) ps p

theorem max_export_mem {l : List (String × String)} {w : String × String}
    (h : max_export l = some w) : w ∈ l := by
  cases l with
  | nil => exact Option.noConfusion h
  | cons p ps =>
    simp only [max_export, Option.some.injEq] at h
    subst h
    exact foldl_choice_mem _
      (fun a b => by by_cases hc : die_size a.2 < die_size b.2 <;> simp [hc]) ps p

theorem apply_boom_trade {e : List (String × String)} {t : String}
    {pb : List (String × String) × String} (h : apply_boom e t = some pb) :
    step_die t true = some pb.2 := by
  unfold apply_boom at h
  split at h
  · exact Option.noConfusion h
  · next e2 he2 =>
    split at h
    · exact Option.noConfusion h
    · next t2 ht2 =>
      injection h with h
      subst h
      exact ht2

theorem apply_slump_trade {e : List (String × String)} {t : String}
    {ps : List (String × String) × String} (h : apply_slump e t = some ps) :
    step_die t false = some ps.2 := by
  unfold apply_slump at h
  split at h
  · exact Option.noConfusion h
  · next e2 he2 =>
    split at h
    · exact Option.noConfusion h
    · next t2 ht2 =>
      injection h with h
      subst h
      exact ht2

theorem apply_boom_keys {e : List (String × String)} {t : String}
    {pb : List (String × String) × String} (h : apply_boom e t = some pb) :
    pb.1.map Prod.fst = e.map Prod.fst := by
  unfold apply_boom at h
  split at h
  · exact Option.noConfusion h
  · next e2 he2 =>
    split at h
    · exact Option.noConfusion h
    · next t2 ht2 =>
      injection h with h
      subst h
      split at he2
      · injection he2 with he2
        subst he2
        rfl
      · next w hw =>
        rcases Option.map_eq_some'.mp he2 with ⟨d, hd, rfl⟩
        exact alistSet_keys_of_mem d (List.mem_map.mpr ⟨w, min_export_mem hw, rfl⟩)

theorem apply_slump_keys {e : List (String × String)} {t : String}
    {ps : List (String × String) × String} (h : apply_slump e t = some ps) :
    ps.1.map Prod.fst = e.map Prod.fst := by
  unfold apply_slump at h
  split at h
  · exact Option.noConfusion h
  · next e2 he2 =>
    split at h
    · exact Option.noConfusion h
    · next t2 ht2 =>
      injection h with h
      subst h
      split at he2
      · injection he2 with he2
        subst he2
        rfl
      · next w hw =>
        rcases Option.map_eq_some'.mp he2 with ⟨d, hd, rfl⟩
        exact alistSet_keys_of_mem d (List.mem_map.mpr ⟨w, max_export_mem hw, rfl⟩)

theorem step_die_isSome_of_mem : ∀ d ∈ DIE_LADDER, ∀ up, (step_die d up).isSome := by
  decide

theorem step_die_up_ne_down_of_mem : ∀ d ∈ DIE_LADDER, step_die d true ≠ step_die d false := by
  decide

theorem validState_of_validate_ok {s : EconomyState} (h : s.validate = .ok ()) :
    ValidState s := by
  unfold EconomyState.validate at h
  split at h
  · exact Except.noConfusion h
  · rename_i hnone
    rw [List.find?_eq_none] at hnone
    split_ifs at h with h1 h2 h3 h4 h5
    push_neg at h1 h2
    refine ⟨?_, ?_, ?_, ?_, ?_, ?_, ?_, h3, ?_, ?_⟩
    · simpa using hnone s.trade_die (by simp)
    · simpa using hnone s.agri_die (by simp)
    · intro p hp
      simpa using hnone p.2
        (List.mem_append.mpr (Or.inr (List.mem_map.mpr ⟨p, hp, rfl⟩)))
    · intro p hp
      exact h1 p.2 (List.mem_append.mpr (Or.inl (List.mem_map.mpr ⟨p, hp, rfl⟩)))
    · intro p hp
      exact h1 p.2 (List.mem_append.mpr (Or.inr (List.mem_map.mpr ⟨p, hp, rfl⟩)))
    · omega
    · omega
    · omega
    · omega

theorem simulate_month_core_ok (s : EconomyState) (o : Oracle) (r : StepResult)
    (h : simulate_month_core s o = .ok r) :
    s.validate = .ok () ∧ 1 ≤ die_size s.trade_die ∧ 1 ≤ die_size s.agri_die ∧
    r.t_roll = o.t_roll ∧ r.a_roll = o.a_roll ∧
    r.trade_gp = trade_gp_of o ∧ r.agri_gp = agri_gp_of o ∧
    r.exp_gp = exp_gp_of s ∧ r.foreign_gp = foreign_sales s.exports ∧
    r.potential_tariff = tariff_of s o ∧ r.outflows = outflows_of s o ∧
    r.flat_rev = flat_rev_of s o ∧ r.raw = raw_of s o ∧ r.trend = trend_of s o ∧
    r.profit = profit_of s o ∧ r.avg_ei = avg_ei_of s ∧
    r.boom = boom_of s o ∧ r.slump = slump_of s o ∧
    r.state.agri_die = s.agri_die ∧
    r.state.revenue = revenue2_of s o ∧
    r.state.export_quantities = s.export_quantities ∧
    r.state.costs = s.costs ∧
    r.state.import_penalties = s.import_penalties ∧
    r.state.upkeep = s.upkeep ∧
    r.state.loyalty_tier = s.loyalty_tier ∧
    r.state.treasury = s.treasury + profit_of s o ∧
    r.state.total_import_value = s.total_import_value ∧
    (boom_of s o = true →
      apply_boom s.exports s.trade_die = some (r.state.exports, r.state.trade_die)) ∧
    (boom_of s o = false → slump_of s o = true →
      apply_slump s.exports s.trade_die = some (r.state.exports, r.state.trade_die)) ∧
    (boom_of s o = false → slump_of s o = false →
      r.state.exports = s.exports ∧ r.state.trade_die = s.trade_die) := by
  simp only [simulate_month_core] at h
  split at h
  · exact Except.noConfusion h
  · rename_i hv
    split at h
    · exact Except.noConfusion h
    · rename_i t hrt
      split at h
      · exact Except.noConfusion h
      · rename_i a hra
        obtain ⟨hts, rfl⟩ := roll_die_ok hrt
        obtain ⟨has, rfl⟩ := roll_die_ok hra
        split at h
        · exact Except.noConfusion h
        · rename_i exports2 trade2 heff
          rw [Except.ok.injEq] at h
          subst h
          have heff2 : (if boom_of s o then apply_boom s.exports s.trade_die
              else if slump_of s o then apply_slump s.exports s.trade_die
              else some (s.exports, s.trade_die)) = some (exports2, trade2) := heff
          refine ⟨hv, hts, has, rfl, rfl, rfl, rfl, rfl, rfl, rfl, rfl, rfl, rfl,
            rfl, rfl, rfl, rfl, rfl, rfl, rfl, rfl, rfl, rfl, rfl, rfl, rfl, rfl,
            ?_, ?_, ?_⟩
          · intro hb
            rw [hb] at heff2
            simpa using heff2
          · intro hb hs
            rw [hb, hs] at heff2
            simpa using heff2
          · intro hb hs
            rw [hb, hs] at heff2
            simp only [Bool.false_eq_true, if_false, Option.some.injEq,
              Prod.mk.injEq] at heff2
            exact ⟨heff2.1.symm, heff2.2.symm⟩

/-! The claims. -/

/-- C7: `demand_score(population, scarcity, relationship, distance)` equals
`max(0, (population + scarcity + relationship) - distance)`; it is always
non-negative, monotonically non-decreasing in population, scarcity and
relationship, and non-increasing in distance. -/
theorem C7_demand_score_spec :
    (∀ pop scar rel dist : ℚ,
      demand_score pop scar rel dist = max 0 (pop + scar + rel - dist)) ∧
    (∀ pop scar rel dist : ℚ, 0 ≤ demand_score pop scar rel dist) ∧
    (∀ pop pop2 scar rel dist : ℚ, pop ≤ pop2 →
      demand_score pop scar rel dist ≤ demand_score pop2 scar rel dist) ∧
    (∀ pop scar scar2 rel dist : ℚ, scar ≤ scar2 →
      demand_score pop scar rel dist ≤ demand_score pop scar2 rel dist) ∧
    (∀ pop scar rel rel2 dist : ℚ, rel ≤ rel2 →
      demand_score pop scar rel dist ≤ demand_score pop scar rel2 dist) ∧
    (∀ pop scar rel dist dist2 : ℚ, dist ≤ dist2 →
      demand_score pop scar rel dist2 ≤ demand_score pop scar rel dist) := by
  refine ⟨fun _ _ _ _ => rfl, fun _ _ _ _ => le_max_left _ _, ?_, ?_, ?_, ?_⟩ <;>
    exact fun a b c d e h => max_le_max le_rfl (by linarith)

/-- C8: die-ladder stepping saturates without error — stepping up from the top
tier returns the top tier, stepping down from the bottom tier returns the
bottom tier, and for every non-boundary ladder value stepping up then down
returns the original value. -/
theorem C8_step_die_saturates :
    step_die "d12" true = some "d12" ∧ step_die "d0" false = some "d0" ∧
    ∀ v ∈ DIE_LADDER, v ≠ "d0" → v ≠ "d12" →
      (step_die v true).bind (fun u => step_die u false) = some v := by
  decide

/-- C2: every state violating a validated invariant is rejected at the start of
the step: `validate` raises, and `simulate_month` propagates exactly that error
for every oracle, so no randomness is consumed and no new state is produced. -/
theorem C2_invalid_state_rejected (s : EconomyState) (h : ¬ ValidState s) :
    ∃ e, s.validate = .error e ∧ ∀ o : Oracle,
      simulate_month_core s o = .error e ∧ simulate_month s o = .error e := by
  cases hv : s.validate with
  | error e =>
    have hcore : ∀ o : Oracle, simulate_month_core s o = .error e := by
      intro o
      unfold simulate_month_core
      rw [hv]
    exact ⟨e, rfl, fun o => ⟨hcore o, by unfold simulate_month; rw [hcore o]; rfl⟩⟩
  | ok u =>
    cases u
    exact absurd (validState_of_validate_ok hv) h

/-- C2 witness: the states with `loyalty_tier = 6` and with `trade_die = "dX"`
are rejected this way. -/
theorem C2_witness :
    (∃ e, bad_loyalty_state.validate = .error e ∧ ∀ o : Oracle,
      simulate_month_core bad_loyalty_state o = .error e ∧
      simulate_month bad_loyalty_state o = .error e) ∧
    (∃ e, bad_die_state.validate = .error e ∧ ∀ o : Oracle,
      simulate_month_core bad_die_state o = .error e ∧
      simulate_month bad_die_state o = .error e) :=
  ⟨C2_invalid_state_rejected bad_loyalty_state (by decide),
   C2_invalid_state_rejected bad_die_state (by decide)⟩

/-- C3: `"d0"` is on the die ladder and accepted by `validate`, but rolling it
requests a uniform integer on the empty range `[1, 0]` and raises, so
`simulate_month` is not total on validated states. -/
theorem C3_d0_validated_but_step_raises (o : Oracle) :
    "d0" ∈ DIE_LADDER ∧ d0_state.validate = .ok () ∧
    simulate_month_core d0_state o = .error "empty range for randrange" ∧
    simulate_month d0_state o = .error "empty range for randrange" := by
  have hval : d0_state.validate = .ok () := rfl
  have hcore : simulate_month_core d0_state o = .error "empty range for randrange" := by
    unfold simulate_month_core
    rw [hval]
    rfl
  refine ⟨by decide, hval, hcore, ?_⟩
  unfold simulate_month
  rw [hcore]
  rfl

/-- C3 witness: the failure at a concrete oracle. -/
theorem C3_witness :
    "d0" ∈ DIE_LADDER ∧ d0_state.validate = .ok () ∧
    simulate_month_core d0_state o_zero = .error "empty range for randrange" ∧
    simulate_month d0_state o_zero = .error "empty range for randrange" :=
  C3_d0_validated_but_step_raises o_zero

unseal Rat.add Rat.mul Rat.inv Rat.sub in
/-- C6: `foreign_sales` sums `demand_score × die size × GP_PER_EXPORT_STEP`
over every neighbour and exported commodity with strictly positive demand; it
is 0 on an empty export mapping and 0 when every neighbour's distance is at
least population + scarcity + relationship for every exported commodity; a
zero-scarcity commodity still contributes when population + relationship
outweigh distance. -/
theorem C6_foreign_sales_spec :
    (∀ exports : List (String × String), foreign_sales exports =
      (NEIGHBOURS.map (fun n => (exports.map (fun ce =>
        if 0 < demand_score n.2.pop (alistGetD n.2.scarcity ce.1 0) n.2.rel n.2.dist then
          demand_score n.2.pop (alistGetD n.2.scarcity ce.1 0) n.2.rel n.2.dist
            * (die_size ce.2 : ℚ) * (GP_PER_EXPORT_STEP : ℚ)
        else 0)).sum)).sum) ∧
    foreign_sales [] = 0 ∧
    (∀ exports : List (String × String),
      (∀ n ∈ NEIGHBOURS, ∀ ce ∈ exports,
        n.2.pop + alistGetD n.2.scarcity ce.1 0 + n.2.rel ≤ n.2.dist) →
      foreign_sales exports = 0) ∧
    (∃ n ∈ NEIGHBOURS, alistGetD n.2.scarcity "fish" 0 = 0 ∧
      0 < demand_score n.2.pop (alistGetD n.2.scarcity "fish" 0) n.2.rel n.2.dist) ∧
    foreign_sales [("fish", "d4")] = 70 := by
  refine ⟨fun _ => rfl, by decide, ?_, by decide, by decide⟩
  intro exports hdom
  unfold foreign_sales
  apply List.sum_eq_zero
  intro x hx
  rcases List.mem_map.mp hx with ⟨n, hn, rfl⟩
  apply List.sum_eq_zero
  intro y hy
  rcases List.mem_map.mp hy with ⟨ce, hce, rfl⟩
  have hscore : demand_score n.2.pop (alistGetD n.2.scarcity ce.1 0) n.2.rel n.2.dist = 0 :=
    max_eq_left (by have := hdom n hn ce hce; linarith)
  simp [hscore]

/-- C10: `validate` imposes no condition on `export_quantities` — replacing the
quantities does not change the validation outcome, a negative quantity passes
and yields negative domestic export revenue, and only quantities whose
commodity is a key of `exports` are counted. -/
theorem C10_export_quantities_unchecked :
    (∀ (s : EconomyState) (q : List (String × ℤ)),
      ({ s with export_quantities := q } : EconomyState).validate = s.validate) ∧
    (∀ (s : EconomyState) (q q2 : List (String × ℤ)),
      (∀ c ∈ s.exports.map Prod.fst, alistGetD q c 0 = alistGetD q2 c 0) →
      exp_gp_of { s with export_quantities := q } =
        exp_gp_of { s with export_quantities := q2 }) ∧
    ValidState neg_qty_state ∧
    exp_gp_of neg_qty_state = -15 ∧ exp_gp_of neg_qty_state < 0 ∧
    (∀ (o : Oracle) (r : StepResult), simulate_month_core neg_qty_state o = .ok r →
      r.exp_gp = -15) := by
  refine ⟨fun s q => rfl, ?_, by decide, by decide, by decide, ?_⟩
  · intro s q q2 hq
    unfold exp_gp_of
    congr 1
    apply List.map_congr_left
    intro ce hce
    rw [hq ce.1 (List.mem_map.mpr ⟨ce, hce, rfl⟩)]
  · intro o r h
    obtain ⟨_, _, _, _, _, _, _, he, _⟩ := simulate_month_core_ok _ _ _ h
    rw [he]
    decide

/-- C1: on a successful step the tariff equals `round((trade_gp + agri_gp +
sum(revenue values) + export_gp + foreign_gp) × TARIFF_RATE/100)` where the
revenue mapping already holds the just-stored `foreign_sales` (and any old
`trade_tariff`); the tariff is stored in `revenue["trade_tariff"]` and counted
in `outflows` but excluded from `raw`, and the treasury moves by
`round(raw × (1 + LOYALTY_GROWTH_FACTOR × loyalty_tier + trend))` — the tariff
never reduces it. -/
theorem C1_tariff_outflows_raw (s : EconomyState) (o : Oracle) (r : StepResult)
    (h : simulate_month_core s o = .ok r) :
    r.potential_tariff = pyRound (((r.trade_gp : ℚ) + (r.agri_gp : ℚ)
      + alistSum (alistSet s.revenue "foreign_sales" r.foreign_gp)
      + (r.exp_gp : ℚ) + r.foreign_gp) * (TARIFF_RATE / 100)) ∧
    alistGetD r.state.revenue "trade_tariff" 0 = ((r.potential_tariff : ℤ) : ℚ) ∧
    r.outflows = alistSum s.costs + (s.import_penalties : ℚ) + (s.upkeep : ℚ)
      + ((r.potential_tariff : ℤ) : ℚ) ∧
    r.raw = (r.trade_gp : ℚ) + (r.agri_gp : ℚ) + r.flat_rev + (r.exp_gp : ℚ)
      + r.foreign_gp
      - (alistSum s.costs + (s.import_penalties : ℚ) + (s.upkeep : ℚ)) ∧
    r.state.treasury = s.treasury
      + pyRound (r.raw * (1 + LOYALTY_GROWTH_FACTOR * (s.loyalty_tier : ℚ) + r.trend)) := by
  obtain ⟨hv, hts, has, ht, ha, htg, hag, hexp, hfg, htar, hout, hflat, hraw,
    htrend, hprofit, havg, hboom, hslump, hsag, hsrev, hsq, hsc, hsip, hsup,
    hslt, hstr, hstiv, heffB, heffS, heffN⟩ := simulate_month_core_ok s o r h
  refine ⟨?_, ?_, ?_, ?_, ?_⟩
  · rw [htar, htg, hag, hexp, hfg]; rfl
  · rw [hsrev, htar]
    exact alistGetD_set_self _ _ _ _
  · rw [hout, htar]; rfl
  · rw [hraw, htg, hag, hflat, hexp, hfg]; rfl
  · rw [hstr, hraw, htrend]; rfl

unseal Rat.add Rat.mul Rat.inv Rat.sub in
/-- C1 witness: the formulas evaluated on the module's own example state. -/
theorem C1_witness :
    (runResult initial o_main).potential_tariff =
      pyRound ((((runResult initial o_main).trade_gp : ℚ)
      + ((runResult initial o_main).agri_gp : ℚ)
      + alistSum (alistSet initial.revenue "foreign_sales"
          (runResult initial o_main).foreign_gp)
      + ((runResult initial o_main).exp_gp : ℚ)
      + (runResult initial o_main).foreign_gp) * (TARIFF_RATE / 100)) ∧
    alistGetD (runResult initial o_main).state.revenue "trade_tariff" 0 =
      (((runResult initial o_main).potential_tariff : ℤ) : ℚ) ∧
    (runResult initial o_main).outflows = alistSum initial.costs
      + (initial.import_penalties : ℚ) + (initial.upkeep : ℚ)
      + (((runResult initial o_main).potential_tariff : ℤ) : ℚ) ∧
    (runResult initial o_main).raw = ((runResult initial o_main).trade_gp : ℚ)
      + ((runResult initial o_main).agri_gp : ℚ)
      + (runResult initial o_main).flat_rev
      + ((runResult initial o_main).exp_gp : ℚ)
      + (runResult initial o_main).foreign_gp
      - (alistSum initial.costs + (initial.import_penalties : ℚ)
        + (initial.upkeep : ℚ)) ∧
    (runResult initial o_main).state.treasury = initial.treasury
      + pyRound ((runResult initial o_main).raw * (1 + LOYALTY_GROWTH_FACTOR
        * (initial.loyalty_tier : ℚ) + (runResult initial o_main).trend)) :=
  C1_tariff_outflows_raw initial o_main (runResult initial o_main) rfl

/-- C9: a successful step never changes the key set of `exports` nor the fields
`agri_die`, `costs`, `export_quantities`, `import_penalties`, `upkeep`,
`loyalty_tier` and `total_import_value`, and changes no revenue entry other
than `"foreign_sales"` and `"trade_tariff"`. -/
theorem C9_frame (s : EconomyState) (o : Oracle) (r : StepResult)
    (h : simulate_month_core s o = .ok r) :
    r.state.exports.map Prod.fst = s.exports.map Prod.fst ∧
    r.state.agri_die = s.agri_die ∧ r.state.costs = s.costs ∧
    r.state.export_quantities = s.export_quantities ∧
    r.state.import_penalties = s.import_penalties ∧
    r.state.upkeep = s.upkeep ∧
    r.state.loyalty_tier = s.loyalty_tier ∧
    r.state.total_import_value = s.total_import_value ∧
    ∀ k, k ≠ "foreign_sales" → k ≠ "trade_tariff" →
      alistGetD r.state.revenue k 0 = alistGetD s.revenue k 0 := by
  obtain ⟨hv, _, _, _, _, _, _, _, _, _, _, _, _, _, _, _, _, _, hsag, hsrev,
    hsq, hsc, hsip, hsup, hslt, _, hstiv, heffB, heffS, heffN⟩ :=
      simulate_month_core_ok s o r h
  refine ⟨?_, hsag, hsc, hsq, hsip, hsup, hslt, hstiv, ?_⟩
  · cases hb : boom_of s o with
    | true => exact apply_boom_keys (heffB hb)
    | false =>
      cases hs : slump_of s o with
      | true => exact apply_slump_keys (heffS hb hs)
      | false => rw [(heffN hb hs).1]
  · intro k hk1 hk2
    rw [hsrev]
    unfold revenue2_of revenue1_of
    rw [alistGetD_set_ne _ _ _ hk2, alistGetD_set_ne _ _ _ hk1]

unseal Rat.add Rat.mul Rat.inv Rat.sub in
/-- C9 witness: the frame conditions evaluated on the module's example state. -/
theorem C9_witness :
    (runResult initial o_main).state.exports.map Prod.fst =
      initial.exports.map Prod.fst ∧
    (runResult initial o_main).state.agri_die = initial.agri_die ∧
    (runResult initial o_main).state.costs = initial.costs ∧
    (runResult initial o_main).state.export_quantities = initial.export_quantities ∧
    (runResult initial o_main).state.import_penalties = initial.import_penalties ∧
    (runResult initial o_main).state.upkeep = initial.upkeep ∧
    (runResult initial o_main).state.loyalty_tier = initial.loyalty_tier ∧
    (runResult initial o_main).state.total_import_value = initial.total_import_value ∧
    ∀ k, k ≠ "foreign_sales" → k ≠ "trade_tariff" →
      alistGetD (runResult initial o_main).state.revenue k 0 =
        alistGetD initial.revenue k 0 :=
  C9_frame initial o_main (runResult initial o_main) rfl

unseal Rat.add Rat.mul Rat.inv Rat.sub in
/-- C5: in a single step the boom effects and the slump effects are never both
applied — the applied transition follows the boom flag first, then the slump
flag — while each flag is the disjunction of its primary trend trigger and its
average-export-size fallback, the slump fallback being checked even when boom
was not triggered; each classification is reachable through either path alone. -/
theorem C5_boom_slump_exclusive :
    (∀ (s : EconomyState) (o : Oracle) (r : StepResult),
      simulate_month_core s o = .ok r →
      r.boom = (decide (TREND_BOOM_TRIGGER ≤ r.trend)
        || decide (BOOM_THRESHOLD ≤ r.avg_ei)) ∧
      r.slump = (decide (r.trend ≤ TREND_SLUMP_TRIGGER)
        || decide (r.avg_ei ≤ SLUMP_THRESHOLD)) ∧
      ¬(apply_boom s.exports s.trade_die = some (r.state.exports, r.state.trade_die) ∧
        apply_slump s.exports s.trade_die = some (r.state.exports, r.state.trade_die)) ∧
      (r.boom = true →
        apply_boom s.exports s.trade_die = some (r.state.exports, r.state.trade_die)) ∧
      (r.boom = false → r.slump = true →
        apply_slump s.exports s.trade_die = some (r.state.exports, r.state.trade_die)) ∧
      (r.boom = false → r.slump = false →
        r.state.exports = s.exports ∧ r.state.trade_die = s.trade_die)) ∧
    (simulate_month_core avg5_state o_plus = .ok (runResult avg5_state o_plus) ∧
      (runResult avg5_state o_plus).boom = true ∧
      TREND_BOOM_TRIGGER ≤ (runResult avg5_state o_plus).trend ∧
      (runResult avg5_state o_plus).avg_ei < BOOM_THRESHOLD ∧
      (runResult avg5_state o_plus).slump = true) ∧
    (simulate_month_core avg8_state o_minus = .ok (runResult avg8_state o_minus) ∧
      (runResult avg8_state o_minus).boom = true ∧
      (runResult avg8_state o_minus).trend < TREND_BOOM_TRIGGER ∧
      BOOM_THRESHOLD ≤ (runResult avg8_state o_minus).avg_ei) ∧
    (simulate_month_core avg6_state o_minus = .ok (runResult avg6_state o_minus) ∧
      (runResult avg6_state o_minus).boom = false ∧
      (runResult avg6_state o_minus).slump = true ∧
      (runResult avg6_state o_minus).trend ≤ TREND_SLUMP_TRIGGER ∧
      SLUMP_THRESHOLD < (runResult avg6_state o_minus).avg_ei) ∧
    (simulate_month_core avg5_state o_half = .ok (runResult avg5_state o_half) ∧
      (runResult avg5_state o_half).boom = false ∧
      (runResult avg5_state o_half).slump = true ∧
      TREND_SLUMP_TRIGGER < (runResult avg5_state o_half).trend ∧
      (runResult avg5_state o_half).avg_ei ≤ SLUMP_THRESHOLD) := by
  refine ⟨?_, ⟨rfl, rfl, by decide, by decide, rfl⟩,
    ⟨rfl, rfl, by decide, by decide⟩,
    ⟨rfl, rfl, rfl, by decide, by decide⟩,
    ⟨rfl, rfl, rfl, by decide, by decide⟩⟩
  intro s o r h
  obtain ⟨hv, _, _, _, _, _, _, _, _, _, _, _, _, htrend, _, havg, hboom,
    hslump, _, _, _, _, _, _, _, _, _, heffB, heffS, heffN⟩ :=
      simulate_month_core_ok s o r h
  have htmem : s.trade_die ∈ DIE_LADDER := (validState_of_validate_ok hv).1
  refine ⟨?_, ?_, ?_, fun hb => heffB (hboom ▸ hb),
    fun hb hs => heffS (hboom ▸ hb) (hslump ▸ hs),
    fun hb hs => heffN (hboom ▸ hb) (hslump ▸ hs)⟩
  · rw [hboom, htrend, havg]; rfl
  · rw [hslump, htrend, havg]; rfl
  · rintro ⟨hbApp, hsApp⟩
    have h1 := apply_boom_trade hbApp
    have h2 := apply_slump_trade hsApp
    exact step_die_up_ne_down_of_mem s.trade_die htmem (h1.trans h2.symm)

unseal Rat.add Rat.mul Rat.inv Rat.sub in
/-- C4 counterexample: with no exports the growth modifier is the clamp lower
bound -0.2, not 0, and the resulting trend (variance drawn as 0) is -0.2,
outside the claimed bound of plus or minus 0.1. -/
theorem C4_counterexample :
    growth_modifier [] = -(1/5) ∧ growth_modifier [] ≠ 0 ∧
    simulate_month_core no_exports_state o_zero =
      .ok (runResult no_exports_state o_zero) ∧
    (runResult no_exports_state o_zero).trend = -(1/5) ∧
    ¬(-(1/10) ≤ (runResult no_exports_state o_zero).trend ∧
      (runResult no_exports_state o_zero).trend ≤ 1/10) ∧
    (runResult no_exports_state o_zero).boom = false ∧
    (runResult no_exports_state o_zero).slump = true := by
  refine ⟨by decide, by decide, rfl, by decide, by decide, rfl, rfl⟩

unseal Rat.add Rat.mul Rat.inv Rat.sub in
/-- C4 amended: for a state with no exports (and `ECON_BIAS = 0`) the growth
modifier is -0.2, so the trend lies in `[-0.3, -0.1]`; no commodity-die
mutation occurs, boom never triggers, and slump always triggers (primary and
fallback), so `trade_die` steps down. -/
theorem C4_no_exports_always_slump (s : EconomyState) (o : Oracle) (r : StepResult)
    (hexp : s.exports = []) (hu1 : -R_RANGE ≤ o.variance) (hu2 : o.variance ≤ R_RANGE)
    (h : simulate_month_core s o = .ok r) :
    growth_modifier s.exports = -(1/5) ∧
    r.trend = -(1/5) + o.variance ∧
    -(3/10) ≤ r.trend ∧ r.trend ≤ -(1/10) ∧
    r.boom = false ∧ r.slump = true ∧
    r.state.exports = s.exports ∧
    step_die s.trade_die false = some r.state.trade_die := by
  obtain ⟨hv, _, _, _, _, _, _, _, _, _, _, _, _, htrend, _, havg, hboom, hslump,
    _, _, _, _, _, _, _, _, _, heffB, heffS, heffN⟩ := simulate_month_core_ok s o r h
  have hgm : growth_modifier s.exports = -(1/5) := by rw [hexp]; decide
  have havg0 : avg_ei_of s = 0 := by unfold avg_ei_of; rw [hexp]; decide
  have hu1a : -(1/10 : ℚ) ≤ o.variance := hu1
  have hu2a : o.variance ≤ (1/10 : ℚ) := hu2
  have htv : trend_of s o = -(1/5) + o.variance := by
    unfold trend_of random_variance ECON_BIAS
    rw [hgm]
    ring
  have htr : r.trend = -(1/5) + o.variance := by rw [htrend, htv]
  have hb1 : r.trend ≤ -(1/10) := by rw [htr]; linarith
  have hb0 : -(3/10) ≤ r.trend := by rw [htr]; linarith
  have hbf : boom_of s o = false := by
    unfold boom_of
    have h1 : decide (TREND_BOOM_TRIGGER ≤ trend_of s o) = false := by
      rw [decide_eq_false_iff_not, htv]
      unfold TREND_BOOM_TRIGGER
      intro hcon
      linarith
    have h2 : decide (BOOM_THRESHOLD ≤ avg_ei_of s) = false := by
      rw [decide_eq_false_iff_not, havg0]
      decide
    rw [h1, h2]
    rfl
  have hsf : slump_of s o = true := by
    unfold slump_of
    have h2 : decide (avg_ei_of s ≤ SLUMP_THRESHOLD) = true := by
      rw [decide_eq_true_eq, havg0]
      decide
    rw [h2, Bool.or_true]
  have heff := heffS hbf hsf
  rw [hexp] at heff
  unfold apply_slump at heff
  simp only [max_export] at heff
  have hpair : r.state.exports = [] ∧ step_die s.trade_die false = some r.state.trade_die := by
    cases hst : step_die s.trade_die false with
    | none => rw [hst] at heff; exact absurd heff (by simp)
    | some t2 =>
      rw [hst] at heff
      simp only [Option.some.injEq, Prod.mk.injEq] at heff
      exact ⟨heff.1.symm, congrArg some heff.2⟩
  refine ⟨hgm, htr, hb0, hb1, by rw [hboom]; exact hbf, by rw [hslump]; exact hsf,
    by rw [hexp]; exact hpair.1, hpair.2⟩

unseal Rat.add Rat.mul Rat.inv Rat.sub in
/-- C4 witness: the amended behaviour at a concrete no-exports state. -/
theorem C4_witness :
    growth_modifier no_exports_state.exports = -(1/5) ∧
    (runResult no_exports_state o_zero).trend = -(1/5) + o_zero.variance ∧
    -(3/10) ≤ (runResult no_exports_state o_zero).trend ∧
    (runResult no_exports_state o_zero).trend ≤ -(1/10) ∧
    (runResult no_exports_state o_zero).boom = false ∧
    (runResult no_exports_state o_zero).slump = true ∧
    (runResult no_exports_state o_zero).state.exports = no_exports_state.exports ∧
    step_die no_exports_state.trade_die false =
      some (runResult no_exports_state o_zero).state.trade_die :=
  C4_no_exports_always_slump no_exports_state o_zero
    (runResult no_exports_state o_zero) rfl (by decide) (by decide) rfl

end Prespur

